import Mathlib

/-!
Shallow embedding of the rope/winch and helicopter simulation core of the
vibegame repository (src/entities/Rope.ts, src/entities/Helicopter.ts),
with the spec claims settled as theorems below.

Modelling conventions:
- All machine floats are embedded as exact rationals.
- THREE.Vector3 is embedded as Vec3 with componentwise add, sub, scalar
  multiplication and lerp.
- The Euclidean length Vector3.length involves a square root, which is not
  rational; the embedding abstracts it as an explicit function parameter
  named len that is passed to every definition that calls it.  Every theorem
  below is proved for an arbitrary such function; concrete witnesses
  instantiate it with the computable l1 norm.
- A collidable mesh queried by the downward raycaster is modelled as a full
  horizontal plane at a given height h: a ray cast straight down from origin
  height oy hits it exactly when h is at or below oy, and the hit point has
  height h.  The LayerManager registry of in-plane meshes is therefore a
  list of plane heights.
- Debug logging, Date.now timing and console output are I/O only and are
  not modelled.  The hook cone rotation (an atan2-based planar angle,
  Rope.ts lines 236-240) is presentational, touches no segment state and is
  not needed by any claim; only the hook position copy is modelled.
-/

namespace VG

/-- Componentwise embedding of THREE.Vector3 over exact rationals. -/
structure Vec3 where
  x : ℚ
  y : ℚ
  z : ℚ
deriving DecidableEq

namespace Vec3

def add (a b : Vec3) : Vec3 := ⟨a.x + b.x, a.y + b.y, a.z + b.z⟩

def sub (a b : Vec3) : Vec3 := ⟨a.x - b.x, a.y - b.y, a.z - b.z⟩

def smul (c : ℚ) (a : Vec3) : Vec3 := ⟨c * a.x, c * a.y, c * a.z⟩

/-- THREE.Vector3.lerp: a + (b - a) * t componentwise. -/
def lerp (a b : Vec3) (t : ℚ) : Vec3 :=
  ⟨a.x + (b.x - a.x) * t, a.y + (b.y - a.y) * t, a.z + (b.z - a.z) * t⟩

def zero : Vec3 := ⟨0, 0, 0⟩

/-- A concrete, computable instance of the abstract length parameter used by
witnesses and counterexamples (the taxicab norm: zero exactly on the zero
vector, like the Euclidean length of the source). -/
def l1 (v : Vec3) : ℚ := |v.x| + |v.y| + |v.z|

end Vec3

/-- THREE.MathUtils.clamp value lo hi = max lo (min value hi). -/
def clampQ (value lo hi : ℚ) : ℚ := max lo (min value hi)

/-- THREE.MathUtils.lerp x y t = x + (y - x) * t. -/
def lerpQ (x y t : ℚ) : ℚ := x + (y - x) * t

/-- Visual state of one segment cylinder mesh (position, lookAt target and
the y scale factor), as driven by Rope.update lines 195-214. -/
structure MeshState where
  position : Vec3
  lookTarget : Vec3
  scaleY : ℚ
deriving DecidableEq

/-- RopeSegment record of Rope.ts lines 4-9. -/
structure RopeSegment where
  mesh : MeshState
  position : Vec3
  prevPosition : Vec3
  velocity : Vec3
deriving DecidableEq

namespace Rope

-- Constants of Rope.ts lines 22-37, as exact rationals.
def MIN_LENGTH : ℚ := 1/10
def MAX_LENGTH : ℚ := 3
def SEGMENT_COUNT : ℕ := 15
def EXTEND_SPEED : ℚ := 6/100
def GRAVITY : ℚ := 8/1000
def DAMPING : ℚ := 98/100
def HOOK_MASS : ℚ := 1/2
def CONSTRAINT_ITERATIONS : ℕ := 20
def HOOK_MOMENTUM_TRANSFER : ℚ := 5/100
def BOUNCE_FACTOR : ℚ := 3/10
def FRICTION : ℚ := 8/10

/-- State owned by a Rope instance: the segment list, the current length,
the target length and the hook mesh position (Rope.ts lines 13-17). -/
structure State where
  segments : List RopeSegment
  length : ℚ
  targetLength : ℚ
  hookPosition : Vec3
deriving DecidableEq

/-- A fresh segment as built by the constructor (Rope.ts lines 62-74):
mesh at the origin with scale y = 0.01, physics position and prevPosition
at the anchor, zero velocity. -/
def mkSegment (anchor : Vec3) : RopeSegment :=
  { mesh := ⟨Vec3.zero, Vec3.zero, 1/100⟩
    position := anchor
    prevPosition := anchor
    velocity := Vec3.zero }

/-- The Rope constructor (Rope.ts lines 40-99): SEGMENT_COUNT segments all
at the anchor point, length and targetLength at MIN_LENGTH. -/
def mkRope (anchor : Vec3) : State :=
  { segments := List.replicate SEGMENT_COUNT (mkSegment anchor)
    length := MIN_LENGTH
    targetLength := MIN_LENGTH
    hookPosition := Vec3.zero }

/-- The length ramp at the top of Rope.update (lines 102-113): move length
toward targetLength by at most EXTEND_SPEED. -/
def lengthRamp (length targetLength : ℚ) : ℚ :=
  if length < targetLength then min (length + EXTEND_SPEED) targetLength
  else if targetLength < length then max (length - EXTEND_SPEED) targetLength
  else length

/-- Line 116: segments[0].position.copy(anchorPoint). -/
def setAnchor (anchor : Vec3) : List RopeSegment → List RopeSegment
  | [] => []
  | s :: rest => { s with position := anchor } :: rest

/-- Force application of the integration phase (lines 131-135 and 162):
non-terminal segments get GRAVITY subtracted from velocity.y; the terminal
segment gets GRAVITY * HOOK_MASS subtracted and then parentVelocity scaled
by HOOK_MOMENTUM_TRANSFER added. -/
def applyForces (parentVelocity : Vec3) (isLast : Bool) (v : Vec3) : Vec3 :=
  if isLast then
    Vec3.add { v with y := v.y - GRAVITY * HOOK_MASS }
      (Vec3.smul HOOK_MOMENTUM_TRANSFER parentVelocity)
  else
    { v with y := v.y - GRAVITY }

/-- Collision response applied to the terminal segment on a qualifying hit
(lines 151-156): clamp y to hitY + 0.1; if falling, negate velocity.y
scaled by BOUNCE_FACTOR and scale velocity.x and velocity.z by FRICTION. -/
def hookBounce (hitY : ℚ) (seg : RopeSegment) : RopeSegment :=
  { seg with
    position := { seg.position with y := hitY + 1/10 }
    velocity :=
      if seg.velocity.y < 0 then
        ⟨seg.velocity.x * FRICTION, -seg.velocity.y * BOUNCE_FACTOR,
          seg.velocity.z * FRICTION⟩
      else seg.velocity }

/-- Whether the mesh at plane height h produces a qualifying hit for the
segment (lines 145-150): the downward ray from 0.1 above the segment hits
it, and the hit is within the 0.1 clearance threshold. -/
def collideQualifies (h : ℚ) (seg : RopeSegment) : Prop :=
  h ≤ seg.position.y + 1/10 ∧ seg.position.y - h < 1/10

instance (h : ℚ) (seg : RopeSegment) : Decidable (collideQualifies h seg) :=
  inferInstanceAs (Decidable (And _ _))

/-- The ground collision loop over the registered in-plane meshes
(lines 143-160): the downward ray from 0.1 above the segment hits the
plane at height h exactly when h is at or below that origin (the outer
condition, mirroring the intersects-nonempty test); the first mesh whose
hit is within the clearance threshold gets the bounce response and ends
the loop. -/
def groundCollide : List ℚ → RopeSegment → RopeSegment
  | [], seg => seg
  | h :: rest, seg =>
    if h ≤ seg.position.y + 1/10 then
      if seg.position.y - h < 1/10 then hookBounce h seg
      else groundCollide rest seg
    else groundCollide rest seg

/-- One step of the integration loop body (lines 125-167) for a single
segment: save prevPosition, apply forces, resolve ground collision for the
terminal segment only, integrate position, damp velocity. -/
def integrateSegment (planes : List ℚ) (parentVelocity : Vec3)
    (isLast : Bool) (seg : RopeSegment) : RopeSegment :=
  let seg1 := { seg with prevPosition := seg.position }
  let seg2 := { seg1 with velocity := applyForces parentVelocity isLast seg1.velocity }
  let seg3 := if isLast then groundCollide planes seg2 else seg2
  { seg3 with
    position := Vec3.add seg3.position seg3.velocity
    velocity := Vec3.smul DAMPING seg3.velocity }

/-- The integration loop over segments 1..N-1 (the argument list is the
tail of the segment list; the final element is the terminal segment). -/
def integrateTail (planes : List ℚ) (parentVelocity : Vec3) :
    List RopeSegment → List RopeSegment
  | [] => []
  | [s] => [integrateSegment planes parentVelocity true s]
  | s :: rest => integrateSegment planes parentVelocity false s ::
      integrateTail planes parentVelocity rest

/-- One distance-constraint correction for a pair of adjacent segment
positions (lines 175-190): returns the new position of the second segment;
the first segment is never moved.  Skipped when the current distance is
not positive. -/
def constraintPair (len : Vec3 → ℚ) (targetDist : ℚ) (a b : Vec3) : Vec3 :=
  let diff := Vec3.sub b a
  let currentDist := len diff
  if 0 < currentDist then
    Vec3.sub b (Vec3.smul ((currentDist - targetDist) / currentDist) diff)
  else b

/-- The inner Gauss-Seidel sweep over adjacent pairs, given the already
relaxed previous segment. -/
def constraintPassAux (len : Vec3 → ℚ) (targetDist : ℚ) (a : RopeSegment) :
    List RopeSegment → List RopeSegment
  | [] => []
  | b :: rest =>
    let b1 := { b with position := constraintPair len targetDist a.position b.position }
    b1 :: constraintPassAux len targetDist b1 rest

/-- One full constraint iteration (the inner loop of lines 171-191). -/
def constraintPass (len : Vec3 → ℚ) (targetDist : ℚ) :
    List RopeSegment → List RopeSegment
  | [] => []
  | a :: rest => a :: constraintPassAux len targetDist a rest

/-- The outer loop of CONSTRAINT_ITERATIONS iterations (line 170). -/
def iterateConstraints (len : Vec3 → ℚ) (targetDist : ℚ) :
    ℕ → List RopeSegment → List RopeSegment
  | 0, segs => segs
  | n + 1, segs => iterateConstraints len targetDist n (constraintPass len targetDist segs)

/-- The render-transform derivation for one segment and its successor
(lines 199-213): skipped entirely when the pair distance is not positive;
otherwise the mesh is placed at the pair midpoint, oriented to look at the
next position, with scale y equal to the pair distance. -/
def meshUpdateSeg (len : Vec3 → ℚ) (seg next : RopeSegment) : RopeSegment :=
  let direction := Vec3.sub next.position seg.position
  let segmentDist := len direction
  if 0 < segmentDist then
    { seg with mesh :=
        { position := Vec3.lerp seg.position next.position (1/2)
          lookTarget := next.position
          scaleY := segmentDist } }
  else seg

/-- The mesh update loop over adjacent pairs (lines 195-214). -/
def meshPass (len : Vec3 → ℚ) : List RopeSegment → List RopeSegment
  | [] => []
  | [s] => [s]
  | a :: b :: rest => meshUpdateSeg len a b :: meshPass len (b :: rest)

/-- Rope.update (lines 101-241): length ramp, anchor pin, integration with
terminal ground collision, constraint relaxation, render transforms, hook
position.  The parameter len abstracts Vector3.length and planes is the
set of registered in-plane collidable surfaces. -/
def update (len : Vec3 → ℚ) (planes : List ℚ) (s : State)
    (anchorPoint parentVelocity : Vec3) : State :=
  let newLength := lengthRamp s.length s.targetLength
  let segs0 := setAnchor anchorPoint s.segments
  let segs1 :=
    match segs0 with
    | [] => []
    | h :: t => h :: integrateTail planes parentVelocity t
  let targetDist := newLength / ((SEGMENT_COUNT : ℚ) - 1)
  let segs2 := iterateConstraints len targetDist CONSTRAINT_ITERATIONS segs1
  let segs3 := meshPass len segs2
  { segments := segs3
    length := newLength
    targetLength := s.targetLength
    hookPosition := ((segs3.getLast?).map (fun seg => seg.position)).getD s.hookPosition }

/-- Rope.extend (lines 243-259): raise targetLength by EXTEND_SPEED capped
at MAX_LENGTH (the console log is I/O only). -/
def extend (s : State) : State :=
  { s with targetLength := min (s.targetLength + EXTEND_SPEED) MAX_LENGTH }

/-- Rope.retract (lines 261-277): lower targetLength by EXTEND_SPEED
floored at MIN_LENGTH. -/
def retract (s : State) : State :=
  { s with targetLength := max (s.targetLength - EXTEND_SPEED) MIN_LENGTH }

end Rope

/-- The control-state snapshot of game.ts lines 5-20 (booleans set by key
events; only up, down, left, right, q, a, e, d are read by Helicopter). -/
structure Controls where
  up : Bool
  down : Bool
  left : Bool
  right : Bool
  q : Bool
  w : Bool
  e : Bool
  a : Bool
  s : Bool
  d : Bool
  z : Bool
  x : Bool
  c : Bool
  space : Bool
deriving DecidableEq

/-- The all-false control snapshot. -/
def noControls : Controls :=
  ⟨false, false, false, false, false, false, false, false, false, false,
    false, false, false, false⟩

namespace Helicopter

-- Constants of Helicopter.ts lines 15-33, as exact rationals.
def ROPE_OFFSET : ℚ := 1
def INITIAL_HEIGHT : ℚ := 5
def HOVER_VARIANCE : ℚ := 1/10
def HOVER_SPEED : ℚ := 2/1000
def MAX_HORIZONTAL_SPEED : ℚ := 1
def MAX_VERTICAL_SPEED : ℚ := 1
def HORIZONTAL_ACCELERATION : ℚ := 4/1000
def VERTICAL_ACCELERATION : ℚ := 8/1000
def HORIZONTAL_DAMPING : ℚ := 98/100
def VERTICAL_DAMPING : ℚ := 85/100
def HEIGHT_CHANGE_SPEED : ℚ := 15/100
def MIN_HEIGHT : ℚ := 1/2
def MAX_ROLL_ANGLE : ℚ := 3/10
def ROLL_RESPONSE : ℚ := 15

/-- State owned by a Helicopter instance (Helicopter.ts lines 7-36): body
pose and kinematics (only the x and y components are ever driven, so the
constantly-zero z components are not carried), the target height, the time
accumulator, the smoothed visual roll and pitch, the rotor angle, and the
two ropes. -/
structure State where
  posX : ℚ
  posY : ℚ
  velX : ℚ
  velY : ℚ
  accelX : ℚ
  accelY : ℚ
  targetHeight : ℚ
  time : ℚ
  currentRoll : ℚ
  rotationX : ℚ
  rotorAngle : ℚ
  leftRope : Rope.State
  rightRope : Rope.State
deriving DecidableEq

/-- The Helicopter constructor (lines 38-58): body at (0, INITIAL_HEIGHT),
zero kinematics, targetHeight = INITIAL_HEIGHT, ropes anchored at the
local offsets (-ROPE_OFFSET, 0, 0) and (ROPE_OFFSET, 0, 0). -/
def mkHelicopter : State :=
  { posX := 0, posY := INITIAL_HEIGHT, velX := 0, velY := 0
    accelX := 0, accelY := 0
    targetHeight := INITIAL_HEIGHT, time := 0
    currentRoll := 0, rotationX := 0, rotorAngle := 0
    leftRope := Rope.mkRope ⟨-ROPE_OFFSET, 0, 0⟩
    rightRope := Rope.mkRope ⟨ROPE_OFFSET, 0, 0⟩ }

/-- The per-tick target-height update (lines 119-132): up raises by
HEIGHT_CHANGE_SPEED, down lowers by HEIGHT_CHANGE_SPEED only when above
MIN_HEIGHT, and the result is floored at the absolute MIN_HEIGHT. -/
def newTargetHeight (c : Controls) (th : ℚ) : ℚ :=
  let th1 :=
    if c.up then th + HEIGHT_CHANGE_SPEED
    else if c.down then (if MIN_HEIGHT < th then th - HEIGHT_CHANGE_SPEED else th)
    else th
  max MIN_HEIGHT th1

/-- The ground-height scan of lines 165-174: fold over the registered
planes, starting from MIN_HEIGHT, raising the accumulator to each hit of
the downward ray cast from 2 above the carrier. -/
def groundHeightBelow (planes : List ℚ) (posY : ℚ) : ℚ :=
  planes.foldl (fun acc h => if h ≤ posY + 2 then max acc h else acc) MIN_HEIGHT

/-- The vertical velocity after acceleration, damping and clamping
(lines 135-155), as a function of the pre-update state, the control
snapshot and the hover offset of this tick. -/
def newVelY (c : Controls) (hover : ℚ) (s : State) : ℚ :=
  clampQ ((s.velY + ((newTargetHeight c s.targetHeight + hover) - s.posY) * (1/10))
      * VERTICAL_DAMPING)
    (-MAX_VERTICAL_SPEED) MAX_VERTICAL_SPEED

/-- Helicopter.update (lines 95-249).  The parameter hover is the hover
offset of this tick; in the source it equals
sin((time + deltaTime) * HOVER_SPEED) * HOVER_VARIANCE, a transcendental
function of the time accumulator, so it is supplied as an input here.
The parameters aL and aR are the two rope anchor points in world space; in
the source they are the local offsets (-+ROPE_OFFSET, 0, 0) transformed by
the carrier world matrix, which involves the trigonometric rotation of the
smoothed roll and pitch, so they are likewise supplied as inputs.  The
parameter len abstracts Vector3.length and planes the registered
collidable surfaces, as for Rope.update. -/
def update (len : Vec3 → ℚ) (planes : List ℚ) (c : Controls)
    (dt hover : ℚ) (aL aR : Vec3) (s : State) : State :=
  -- line 97: the carrier velocity snapshot taken before this update
  let heliVel : Vec3 := ⟨s.velX, s.velY, 0⟩
  let time1 := s.time + dt
  let prevVelX := s.velX
  -- lines 109-116
  let accelX1 :=
    if c.left then -HORIZONTAL_ACCELERATION
    else if c.right then HORIZONTAL_ACCELERATION
    else -s.velX * (1/10)
  -- lines 119-132
  let th2 := newTargetHeight c s.targetHeight
  -- lines 135-136
  let accelY1 := ((th2 + hover) - s.posY) * (1/10)
  -- lines 139-155
  let velX1 := clampQ ((s.velX + accelX1) * HORIZONTAL_DAMPING)
      (-MAX_HORIZONTAL_SPEED) MAX_HORIZONTAL_SPEED
  let velY1 := newVelY c hover s
  -- line 158
  let nextY := s.posY + velY1
  -- lines 160-174
  let g := groundHeightBelow planes s.posY
  -- lines 177-183
  let posY1 := if nextY ≤ g + MIN_HEIGHT then g + MIN_HEIGHT else nextY
  let velY2 := if nextY ≤ g + MIN_HEIGHT then 0 else velY1
  let th3 := if nextY ≤ g + MIN_HEIGHT then g + MIN_HEIGHT else th2
  -- line 186
  let posX1 := s.posX + velX1
  -- lines 189-209
  let actualAcceleration := velX1 - prevVelX
  let clampedTargetRoll :=
    clampQ (-actualAcceleration * ROLL_RESPONSE) (-MAX_ROLL_ANGLE) MAX_ROLL_ANGLE
  let roll1 := lerpQ s.currentRoll clampedTargetRoll (15/100)
  -- line 212
  let rotor1 := s.rotorAngle + 3/10
  -- lines 216-221 (uses the post-collision vertical velocity)
  let rotX1 := lerpQ s.rotationX (velY2 * (2/10)) (1/10)
  -- lines 234-244: rope winch dispatch, retract before extend
  let lr1 := if c.q then Rope.retract s.leftRope
    else if c.a then Rope.extend s.leftRope
    else s.leftRope
  let rr1 := if c.e then Rope.retract s.rightRope
    else if c.d then Rope.extend s.rightRope
    else s.rightRope
  -- lines 247-248
  { posX := posX1, posY := posY1, velX := velX1, velY := velY2
    accelX := accelX1, accelY := accelY1
    targetHeight := th3, time := time1
    currentRoll := roll1, rotationX := rotX1, rotorAngle := rotor1
    leftRope := Rope.update len planes lr1 aL heliVel
    rightRope := Rope.update len planes rr1 aR heliVel }

end Helicopter

/-! Concrete inputs used by the witnesses and counterexamples below. -/

/-- A rope state whose target length sits at the upper bound. -/
def ropeAtMax : Rope.State := { Rope.mkRope Vec3.zero with targetLength := Rope.MAX_LENGTH }

/-- A freshly constructed rope; its target length sits at the lower bound. -/
def ropeAtMin : Rope.State := Rope.mkRope Vec3.zero

/-- A terminal segment close above the ground, moving and falling. -/
def segC4 : RopeSegment :=
  { mesh := ⟨Vec3.zero, Vec3.zero, 1/100⟩
    position := ⟨0, 1/20, 0⟩
    prevPosition := ⟨0, 1/20, 0⟩
    velocity := ⟨1, -1/10, 1/2⟩ }

/-- Only the down intent held. -/
def cDown : Controls := { noControls with down := true }

/-- Retract and extend held simultaneously on both ropes. -/
def cBoth : Controls := { noControls with q := true, a := true, e := true, d := true }

/-- A carrier high above ground, with a target height near the absolute
floor. -/
def heliC6 : Helicopter.State :=
  { Helicopter.mkHelicopter with posY := 10, targetHeight := 3/5 }

/-- A carrier hovering just above the empty-scene floor, about to trigger
the ground clamp. -/
def heliC5 : Helicopter.State :=
  { Helicopter.mkHelicopter with posY := 1, targetHeight := 1/2 }

/-! Theorems settling the claims. -/

/-- C1: in every Rope.update call the current length changes by at most
EXTEND_SPEED in absolute value, and, given the current and target lengths
lie in the interval from MIN_LENGTH to MAX_LENGTH before the call, the new
current length lies in that interval as well. -/
theorem C1_currentLength_step
    (len : Vec3 → ℚ) (planes : List ℚ) (s : Rope.State) (a pv : Vec3)
    (hl1 : Rope.MIN_LENGTH ≤ s.length) (hl2 : s.length ≤ Rope.MAX_LENGTH)
    (ht1 : Rope.MIN_LENGTH ≤ s.targetLength) (ht2 : s.targetLength ≤ Rope.MAX_LENGTH) :
    |(Rope.update len planes s a pv).length - s.length| ≤ Rope.EXTEND_SPEED
    ∧ Rope.MIN_LENGTH ≤ (Rope.update len planes s a pv).length
    ∧ (Rope.update len planes s a pv).length ≤ Rope.MAX_LENGTH := by
  have hupd : (Rope.update len planes s a pv).length
      = Rope.lengthRamp s.length s.targetLength := rfl
  have hES : (0:ℚ) < Rope.EXTEND_SPEED := by norm_num [Rope.EXTEND_SPEED]
  rw [hupd]
  unfold Rope.lengthRamp
  split_ifs with h1 h2
  · rcases le_total (s.length + Rope.EXTEND_SPEED) s.targetLength with h | h
    · rw [min_eq_left h]
      refine ⟨?_, by linarith, by linarith⟩
      rw [abs_le]; constructor <;> linarith
    · rw [min_eq_right h]
      refine ⟨?_, by linarith, by linarith⟩
      rw [abs_le]; constructor <;> linarith
  · rcases le_total s.targetLength (s.length - Rope.EXTEND_SPEED) with h | h
    · rw [max_eq_left h]
      refine ⟨?_, by linarith, by linarith⟩
      rw [abs_le]; constructor <;> linarith
    · rw [max_eq_right h]
      refine ⟨?_, by linarith, by linarith⟩
      rw [abs_le]; constructor <;> linarith
  · have : s.length = s.targetLength := le_antisymm (not_lt.mp h2) (not_lt.mp h1)
    refine ⟨?_, by linarith, by linarith⟩
    simp only [sub_self, abs_zero]
    linarith

/-- Witness for C1 at a freshly constructed rope. -/
theorem C1_witness :
    |(Rope.update Vec3.l1 [] (Rope.mkRope Vec3.zero) Vec3.zero Vec3.zero).length
        - (Rope.mkRope Vec3.zero).length| ≤ Rope.EXTEND_SPEED
    ∧ Rope.MIN_LENGTH ≤ (Rope.update Vec3.l1 [] (Rope.mkRope Vec3.zero) Vec3.zero Vec3.zero).length
    ∧ (Rope.update Vec3.l1 [] (Rope.mkRope Vec3.zero) Vec3.zero Vec3.zero).length ≤ Rope.MAX_LENGTH :=
  C1_currentLength_step Vec3.l1 [] (Rope.mkRope Vec3.zero) Vec3.zero Vec3.zero
    (by norm_num [Rope.mkRope, Rope.MIN_LENGTH])
    (by norm_num [Rope.mkRope, Rope.MIN_LENGTH, Rope.MAX_LENGTH])
    (by norm_num [Rope.mkRope, Rope.MIN_LENGTH])
    (by norm_num [Rope.mkRope, Rope.MIN_LENGTH, Rope.MAX_LENGTH])

/-- Helper: one constraint sweep never changes the first list element (the
anchored segment): corrections are only ever applied to the second segment
of each pair. -/
theorem constraintPass_head (len : Vec3 → ℚ) (d : ℚ) (segs : List RopeSegment) :
    (Rope.constraintPass len d segs).head? = segs.head? := by
  cases segs <;> rfl

/-- Helper: the iterated constraint relaxation never changes the first
list element. -/
theorem iterateConstraints_head (len : Vec3 → ℚ) (d : ℚ) (n : ℕ)
    (segs : List RopeSegment) :
    (Rope.iterateConstraints len d n segs).head? = segs.head? := by
  induction n generalizing segs with
  | zero => rfl
  | succ n ih =>
    simp only [Rope.iterateConstraints]
    rw [ih, constraintPass_head]

/-- Helper: the render-transform derivation only writes the mesh field. -/
theorem meshUpdateSeg_position (len : Vec3 → ℚ) (a b : RopeSegment) :
    (Rope.meshUpdateSeg len a b).position = a.position := by
  unfold Rope.meshUpdateSeg
  dsimp only
  split <;> rfl

/-- Helper: the mesh pass preserves the position of the first segment. -/
theorem meshPass_head_position (len : Vec3 → ℚ) (segs : List RopeSegment) :
    ((Rope.meshPass len segs).head?.map (fun seg => seg.position))
      = segs.head?.map (fun seg => seg.position) := by
  match segs with
  | [] => rfl
  | [s] => rfl
  | a :: b :: rest => simp [Rope.meshPass, meshUpdateSeg_position]

/-- C2: after every Rope.update call on a rope with at least one segment,
the position of segment 0 equals the supplied anchor point, whatever its
prior position or velocity; moreover the constraint-relaxation sweep never
moves segment 0 of any segment list. -/
theorem C2_anchor_pinning (len : Vec3 → ℚ) (planes : List ℚ) (s : Rope.State)
    (a pv : Vec3) (h : s.segments ≠ []) :
    ((Rope.update len planes s a pv).segments.head?.map (fun seg => seg.position)) = some a
    ∧ ∀ d segs2, (Rope.constraintPass len d segs2).head? = segs2.head? := by
  refine ⟨?_, fun d segs2 => constraintPass_head len d segs2⟩
  obtain ⟨h0, t, hseg⟩ := List.exists_cons_of_ne_nil h
  simp only [Rope.update, hseg, Rope.setAnchor]
  rw [meshPass_head_position, iterateConstraints_head]
  rfl

/-- Witness for C2 at a freshly constructed rope and a nonzero anchor. -/
theorem C2_witness :
    (Rope.mkRope Vec3.zero).segments ≠ []
    ∧ ((Rope.update Vec3.l1 [] (Rope.mkRope Vec3.zero) ⟨1, 2, 3⟩ Vec3.zero).segments.head?.map
        (fun seg => seg.position)) = some ⟨1, 2, 3⟩ :=
  ⟨by simp [Rope.mkRope, Rope.SEGMENT_COUNT],
    (C2_anchor_pinning Vec3.l1 [] (Rope.mkRope Vec3.zero) ⟨1, 2, 3⟩ Vec3.zero
      (by simp [Rope.mkRope, Rope.SEGMENT_COUNT])).1⟩

/-- Helper: the constraint sweep writes positions only, never velocities. -/
theorem constraintPassAux_velocities (len : Vec3 → ℚ) (d : ℚ) (a : RopeSegment)
    (l : List RopeSegment) :
    (Rope.constraintPassAux len d a l).map (fun seg => seg.velocity)
      = l.map (fun seg => seg.velocity) := by
  induction l generalizing a with
  | nil => rfl
  | cons b rest ih => simp only [Rope.constraintPassAux, List.map_cons, ih]

/-- Helper: one full constraint pass preserves all velocities. -/
theorem constraintPass_velocities (len : Vec3 → ℚ) (d : ℚ) (l : List RopeSegment) :
    (Rope.constraintPass len d l).map (fun seg => seg.velocity)
      = l.map (fun seg => seg.velocity) := by
  cases l with
  | nil => rfl
  | cons a rest =>
    simp only [Rope.constraintPass, List.map_cons, constraintPassAux_velocities]

/-- Helper: the iterated constraint relaxation preserves all velocities. -/
theorem iterateConstraints_velocities (len : Vec3 → ℚ) (d : ℚ) (n : ℕ)
    (l : List RopeSegment) :
    (Rope.iterateConstraints len d n l).map (fun seg => seg.velocity)
      = l.map (fun seg => seg.velocity) := by
  induction n generalizing l with
  | zero => rfl
  | succ n ih =>
    simp only [Rope.iterateConstraints]
    rw [ih, constraintPass_velocities]

/-- Helper: the render-transform derivation preserves the velocity. -/
theorem meshUpdateSeg_velocity (len : Vec3 → ℚ) (a b : RopeSegment) :
    (Rope.meshUpdateSeg len a b).velocity = a.velocity := by
  unfold Rope.meshUpdateSeg
  dsimp only
  split <;> rfl

/-- Helper: the mesh pass preserves all velocities. -/
theorem meshPass_velocities (len : Vec3 → ℚ) :
    ∀ l : List RopeSegment,
      (Rope.meshPass len l).map (fun seg => seg.velocity)
        = l.map (fun seg => seg.velocity)
  | [] => rfl
  | [s] => rfl
  | a :: b :: rest => by
    simp only [Rope.meshPass, List.map_cons, meshUpdateSeg_velocity]
    have := meshPass_velocities len (b :: rest)
    simp only [List.map_cons] at this
    rw [this]

/-- Helper: the velocities produced by Rope.update are exactly those of
the integration phase (anchor pinning, constraint relaxation and mesh
derivation never touch a velocity). -/
theorem update_velocities (len : Vec3 → ℚ) (planes : List ℚ) (s : Rope.State)
    (a pv : Vec3) (h0 : RopeSegment) (t : List RopeSegment)
    (hseg : s.segments = h0 :: t) :
    (Rope.update len planes s a pv).segments.map (fun seg => seg.velocity)
      = h0.velocity :: (Rope.integrateTail planes pv t).map (fun seg => seg.velocity) := by
  simp only [Rope.update, hseg, Rope.setAnchor]
  rw [meshPass_velocities, iterateConstraints_velocities]
  simp

/-- C3 is refuted: in the update of a freshly constructed rope with zero
parent velocity, the post-update velocity of segment 1 differs from that
of the terminal segment 14, although the claim (same uniform gravity
constant for all of 1..N-1, terminal momentum term zero here) would force
them to be equal: the terminal segment receives GRAVITY * HOOK_MASS, the
others GRAVITY. -/
theorem C3_counterexample :
    ((Rope.update Vec3.l1 [] (Rope.mkRope Vec3.zero) Vec3.zero Vec3.zero).segments.map
        (fun seg => seg.velocity))[1]?
      ≠ ((Rope.update Vec3.l1 [] (Rope.mkRope Vec3.zero) Vec3.zero Vec3.zero).segments.map
        (fun seg => seg.velocity))[14]? := by
  rw [update_velocities Vec3.l1 [] (Rope.mkRope Vec3.zero) Vec3.zero Vec3.zero
      (Rope.mkSegment Vec3.zero)
      (List.replicate 14 (Rope.mkSegment Vec3.zero)) rfl]
  rw [show List.replicate 14 (Rope.mkSegment Vec3.zero)
      = [Rope.mkSegment Vec3.zero, Rope.mkSegment Vec3.zero, Rope.mkSegment Vec3.zero,
         Rope.mkSegment Vec3.zero, Rope.mkSegment Vec3.zero, Rope.mkSegment Vec3.zero,
         Rope.mkSegment Vec3.zero, Rope.mkSegment Vec3.zero, Rope.mkSegment Vec3.zero,
         Rope.mkSegment Vec3.zero, Rope.mkSegment Vec3.zero, Rope.mkSegment Vec3.zero,
         Rope.mkSegment Vec3.zero, Rope.mkSegment Vec3.zero] from rfl]
  simp only [Rope.integrateTail, Rope.integrateSegment, Rope.applyForces,
    Rope.groundCollide, Rope.mkSegment, Vec3.add, Vec3.smul, Vec3.zero,
    Rope.GRAVITY, Rope.HOOK_MASS, Rope.DAMPING, Rope.HOOK_MOMENTUM_TRANSFER,
    List.map_cons, List.map_nil, Bool.false_eq_true, if_false, if_true]
  simp only [List.getElem?_cons_succ, List.getElem?_cons_zero, ne_eq,
    Option.some.injEq, Vec3.mk.injEq]
  norm_num

/-- C3 amended: in the integration phase of Rope.update, every non-anchor
non-terminal segment has GRAVITY subtracted from velocity.y; the terminal
segment instead has GRAVITY * HOOK_MASS subtracted and additionally
receives parentVelocity scaled by HOOK_MOMENTUM_TRANSFER added to its
velocity (stated on the loop body, with damping applied after, and with no
collidable surface for the terminal case). -/
theorem C3_gravity_amended (planes : List ℚ) (pv : Vec3) (seg : RopeSegment) :
    (Rope.integrateSegment planes pv false seg).velocity
      = Vec3.smul Rope.DAMPING ⟨seg.velocity.x, seg.velocity.y - Rope.GRAVITY, seg.velocity.z⟩
    ∧ (Rope.integrateSegment [] pv true seg).velocity
      = Vec3.smul Rope.DAMPING
          (Vec3.add ⟨seg.velocity.x, seg.velocity.y - Rope.GRAVITY * Rope.HOOK_MASS, seg.velocity.z⟩
            (Vec3.smul Rope.HOOK_MOMENTUM_TRANSFER pv)) :=
  ⟨rfl, rfl⟩

/-- Helper: with no qualifying hit among the registered surfaces, the
collision loop leaves the terminal segment unchanged. -/
theorem groundCollide_no_hit (planes : List ℚ) (seg : RopeSegment)
    (h : ∀ p ∈ planes, ¬ Rope.collideQualifies p seg) :
    Rope.groundCollide planes seg = seg := by
  induction planes with
  | nil => rfl
  | cons p rest ih =>
    have hp := h p (List.mem_cons_self p rest)
    have hrest := ih (fun q hq => h q (List.mem_cons_of_mem p hq))
    rw [Rope.groundCollide]
    split_ifs with h1 h2
    · exact absurd ⟨h1, h2⟩ hp
    · exact hrest
    · exact hrest

/-- Helper: the collision loop applies the bounce of the first qualifying
mesh in registration order and ignores every mesh after it. -/
theorem groundCollide_first_hit (l1 : List ℚ) (hY : ℚ) (l2 : List ℚ)
    (seg : RopeSegment)
    (hmiss : ∀ p ∈ l1, ¬ Rope.collideQualifies p seg)
    (hhit : Rope.collideQualifies hY seg) :
    Rope.groundCollide (l1 ++ hY :: l2) seg = Rope.hookBounce hY seg := by
  induction l1 with
  | nil =>
    rw [List.nil_append, Rope.groundCollide, if_pos hhit.1, if_pos hhit.2]
  | cons p rest ih =>
    have hp := hmiss p (List.mem_cons_self p rest)
    have hrest := ih (fun q hq => hmiss q (List.mem_cons_of_mem p hq))
    rw [List.cons_append, Rope.groundCollide]
    split_ifs with h1 h2
    · exact absurd ⟨h1, h2⟩ hp
    · exact hrest
    · exact hrest

/-- C4: ground collision is resolved only for the terminal segment (the
non-terminal loop body never consults the surfaces); the first mesh in
registration order whose downward-ray hit lies within the clearance
threshold determines the response and all later meshes are ignored; the
response sets the segment height to hitY + 0.1 and, exactly when the
segment was falling, negates the vertical velocity scaled by BOUNCE_FACTOR
and scales the horizontal components by FRICTION; with no qualifying hit
the segment is untouched. -/
theorem C4_ground_collision (l1 : List ℚ) (hY : ℚ) (l2 : List ℚ)
    (seg : RopeSegment)
    (hmiss : ∀ p ∈ l1, ¬ Rope.collideQualifies p seg)
    (hhit : Rope.collideQualifies hY seg) :
    Rope.groundCollide (l1 ++ hY :: l2) seg = Rope.hookBounce hY seg
    ∧ (Rope.hookBounce hY seg).position.y = hY + 1/10
    ∧ (Rope.hookBounce hY seg).position.x = seg.position.x
    ∧ (seg.velocity.y < 0 →
        (Rope.hookBounce hY seg).velocity
          = ⟨seg.velocity.x * Rope.FRICTION, -seg.velocity.y * Rope.BOUNCE_FACTOR,
              seg.velocity.z * Rope.FRICTION⟩)
    ∧ (¬ seg.velocity.y < 0 → (Rope.hookBounce hY seg).velocity = seg.velocity)
    ∧ (∀ (planes : List ℚ) (pv : Vec3) (s2 : RopeSegment),
        Rope.integrateSegment planes pv false s2 = Rope.integrateSegment [] pv false s2)
    ∧ (∀ (planes : List ℚ) (s2 : RopeSegment),
        (∀ p ∈ planes, ¬ Rope.collideQualifies p s2) →
          Rope.groundCollide planes s2 = s2) := by
  refine ⟨groundCollide_first_hit l1 hY l2 seg hmiss hhit, rfl, rfl, ?_, ?_,
    fun _ _ _ => rfl, fun planes s2 hm => groundCollide_no_hit planes s2 hm⟩
  · intro hfall
    show (if seg.velocity.y < 0 then _ else _) = _
    rw [if_pos hfall]
  · intro hrise
    show (if seg.velocity.y < 0 then _ else _) = _
    rw [if_neg hrise]

/-- Witness for C4: a falling terminal segment at height 0.05 over the
surface list with heights 10 (missed by the clearance test), 0 (the first
qualifying hit) and 7 (ignored). -/
theorem C4_witness :
    (¬ Rope.collideQualifies 10 segC4)
    ∧ Rope.collideQualifies 0 segC4
    ∧ Rope.groundCollide [10, 0, 7] segC4 = Rope.hookBounce 0 segC4
    ∧ (Rope.hookBounce 0 segC4).position.y = 0 + 1/10 :=
  have hmiss : ∀ p ∈ [(10:ℚ)], ¬ Rope.collideQualifies p segC4 := by
    intro p hp
    rw [List.mem_singleton] at hp
    subst hp
    norm_num [Rope.collideQualifies, segC4]
  have hhit : Rope.collideQualifies 0 segC4 := by
    norm_num [Rope.collideQualifies, segC4]
  ⟨hmiss 10 (List.mem_singleton.mpr rfl), hhit,
    (C4_ground_collision [10] 0 [7] segC4 hmiss hhit).1,
    (C4_ground_collision [10] 0 [7] segC4 hmiss hhit).2.1⟩

/-- C7: extend at MAX_LENGTH and retract at MIN_LENGTH leave the whole
rope state (in particular targetLength) unchanged; in general extend and
retract move targetLength by EXTEND_SPEED clamped at the respective bound,
and both keep it inside the interval when it starts inside. -/
theorem C7_extend_retract_noop (s : Rope.State) :
    (s.targetLength = Rope.MAX_LENGTH → Rope.extend s = s)
    ∧ (s.targetLength = Rope.MIN_LENGTH → Rope.retract s = s)
    ∧ (Rope.extend s).targetLength = min (s.targetLength + Rope.EXTEND_SPEED) Rope.MAX_LENGTH
    ∧ (Rope.retract s).targetLength = max (s.targetLength - Rope.EXTEND_SPEED) Rope.MIN_LENGTH
    ∧ (Rope.MIN_LENGTH ≤ s.targetLength → s.targetLength ≤ Rope.MAX_LENGTH →
        Rope.MIN_LENGTH ≤ (Rope.extend s).targetLength
        ∧ (Rope.extend s).targetLength ≤ Rope.MAX_LENGTH
        ∧ Rope.MIN_LENGTH ≤ (Rope.retract s).targetLength
        ∧ (Rope.retract s).targetLength ≤ Rope.MAX_LENGTH) := by
  refine ⟨?_, ?_, rfl, rfl, ?_⟩
  · intro h
    show { s with targetLength := min (s.targetLength + Rope.EXTEND_SPEED) Rope.MAX_LENGTH } = s
    rw [h, min_eq_right (by norm_num [Rope.MAX_LENGTH, Rope.EXTEND_SPEED]), ← h]
  · intro h
    show { s with targetLength := max (s.targetLength - Rope.EXTEND_SPEED) Rope.MIN_LENGTH } = s
    rw [h, max_eq_right (by norm_num [Rope.MIN_LENGTH, Rope.EXTEND_SPEED]), ← h]
  · intro h1 h2
    have hES : (0:ℚ) < Rope.EXTEND_SPEED := by norm_num [Rope.EXTEND_SPEED]
    have hMM : Rope.MIN_LENGTH ≤ Rope.MAX_LENGTH := by
      norm_num [Rope.MIN_LENGTH, Rope.MAX_LENGTH]
    refine ⟨le_min (by linarith) hMM, min_le_right _ _, le_max_right _ _,
      max_le (by linarith) hMM⟩

/-- C8: in the constraint-relaxation step and the render-transform
derivation, a segment pair at exactly zero distance is skipped: no
correction is applied and no mesh orientation update happens, so the
division by the pair distance is never taken and (in this exact-arithmetic
embedding) positions and velocities stay well defined. -/
theorem C8_zero_distance_guard (len : Vec3 → ℚ) (targetDist : ℚ) (a b : Vec3)
    (seg next : RopeSegment)
    (hab : len (Vec3.sub b a) = 0)
    (hsn : len (Vec3.sub next.position seg.position) = 0) :
    Rope.constraintPair len targetDist a b = b
    ∧ Rope.meshUpdateSeg len seg next = seg := by
  constructor
  · unfold Rope.constraintPair
    dsimp only
    rw [hab, if_neg (lt_irrefl 0)]
  · unfold Rope.meshUpdateSeg
    dsimp only
    rw [hsn, if_neg (lt_irrefl 0)]

/-- Witness for C8 at coincident points and coincident fresh segments. -/
theorem C8_witness :
    Vec3.l1 (Vec3.sub Vec3.zero Vec3.zero) = 0
    ∧ Rope.constraintPair Vec3.l1 (1/140) Vec3.zero Vec3.zero = Vec3.zero
    ∧ Rope.meshUpdateSeg Vec3.l1 (Rope.mkSegment Vec3.zero) (Rope.mkSegment Vec3.zero)
        = Rope.mkSegment Vec3.zero :=
  have h0 : Vec3.l1 (Vec3.sub Vec3.zero Vec3.zero) = 0 := by
    norm_num [Vec3.l1, Vec3.sub, Vec3.zero]
  ⟨h0,
    (C8_zero_distance_guard Vec3.l1 (1/140) Vec3.zero Vec3.zero
      (Rope.mkSegment Vec3.zero) (Rope.mkSegment Vec3.zero) h0 h0).1,
    (C8_zero_distance_guard Vec3.l1 (1/140) Vec3.zero Vec3.zero
      (Rope.mkSegment Vec3.zero) (Rope.mkSegment Vec3.zero) h0 h0).2⟩

/-- Witness for C7 at rope states sitting exactly at the two bounds. -/
theorem C7_witness :
    ropeAtMax.targetLength = Rope.MAX_LENGTH
    ∧ Rope.extend ropeAtMax = ropeAtMax
    ∧ ropeAtMin.targetLength = Rope.MIN_LENGTH
    ∧ Rope.retract ropeAtMin = ropeAtMin :=
  ⟨rfl, (C7_extend_retract_noop ropeAtMax).1 rfl, rfl,
    (C7_extend_retract_noop ropeAtMin).2.1 rfl⟩

/-- Helper: the committed vertical position of Helicopter.update, read off
the collision branch. -/
theorem heliUpdate_posY (len : Vec3 → ℚ) (planes : List ℚ) (c : Controls)
    (dt hover : ℚ) (aL aR : Vec3) (s : Helicopter.State) :
    (Helicopter.update len planes c dt hover aL aR s).posY
      = if s.posY + Helicopter.newVelY c hover s
            ≤ Helicopter.groundHeightBelow planes s.posY + Helicopter.MIN_HEIGHT
        then Helicopter.groundHeightBelow planes s.posY + Helicopter.MIN_HEIGHT
        else s.posY + Helicopter.newVelY c hover s := rfl

/-- Helper: the committed vertical velocity of Helicopter.update. -/
theorem heliUpdate_velY (len : Vec3 → ℚ) (planes : List ℚ) (c : Controls)
    (dt hover : ℚ) (aL aR : Vec3) (s : Helicopter.State) :
    (Helicopter.update len planes c dt hover aL aR s).velY
      = if s.posY + Helicopter.newVelY c hover s
            ≤ Helicopter.groundHeightBelow planes s.posY + Helicopter.MIN_HEIGHT
        then 0
        else Helicopter.newVelY c hover s := rfl

/-- Helper: the committed target height of Helicopter.update. -/
theorem heliUpdate_targetHeight (len : Vec3 → ℚ) (planes : List ℚ) (c : Controls)
    (dt hover : ℚ) (aL aR : Vec3) (s : Helicopter.State) :
    (Helicopter.update len planes c dt hover aL aR s).targetHeight
      = if s.posY + Helicopter.newVelY c hover s
            ≤ Helicopter.groundHeightBelow planes s.posY + Helicopter.MIN_HEIGHT
        then Helicopter.groundHeightBelow planes s.posY + Helicopter.MIN_HEIGHT
        else Helicopter.newTargetHeight c s.targetHeight := rfl

/-- C5: when the candidate vertical position (current height plus the new
vertical velocity) is at or below groundHeight + MIN_HEIGHT, the update
commits exactly groundHeight + MIN_HEIGHT, zeroes the vertical velocity
and snaps targetHeight to the same floor; otherwise it commits the
candidate position and velocity unchanged. -/
theorem C5_carrier_floor_clamp (len : Vec3 → ℚ) (planes : List ℚ) (c : Controls)
    (dt hover : ℚ) (aL aR : Vec3) (s : Helicopter.State) :
    (s.posY + Helicopter.newVelY c hover s
        ≤ Helicopter.groundHeightBelow planes s.posY + Helicopter.MIN_HEIGHT →
      (Helicopter.update len planes c dt hover aL aR s).posY
          = Helicopter.groundHeightBelow planes s.posY + Helicopter.MIN_HEIGHT
      ∧ (Helicopter.update len planes c dt hover aL aR s).velY = 0
      ∧ (Helicopter.update len planes c dt hover aL aR s).targetHeight
          = Helicopter.groundHeightBelow planes s.posY + Helicopter.MIN_HEIGHT)
    ∧ (¬ (s.posY + Helicopter.newVelY c hover s
        ≤ Helicopter.groundHeightBelow planes s.posY + Helicopter.MIN_HEIGHT) →
      (Helicopter.update len planes c dt hover aL aR s).posY
          = s.posY + Helicopter.newVelY c hover s
      ∧ (Helicopter.update len planes c dt hover aL aR s).velY
          = Helicopter.newVelY c hover s) := by
  constructor
  · intro h
    rw [heliUpdate_posY, heliUpdate_velY, heliUpdate_targetHeight,
      if_pos h, if_pos h, if_pos h]
    exact ⟨rfl, rfl, rfl⟩
  · intro h
    rw [heliUpdate_posY, heliUpdate_velY, if_neg h, if_neg h]
    exact ⟨rfl, rfl⟩

/-- Witness for C5: a carrier at height 1 over the empty scene sinks onto
the floor MIN_HEIGHT + MIN_HEIGHT = 1 and is clamped there. -/
theorem C5_witness :
    (heliC5.posY + Helicopter.newVelY noControls 0 heliC5
        ≤ Helicopter.groundHeightBelow [] heliC5.posY + Helicopter.MIN_HEIGHT)
    ∧ (Helicopter.update Vec3.l1 [] noControls 0 0 Vec3.zero Vec3.zero heliC5).posY
        = Helicopter.groundHeightBelow [] heliC5.posY + Helicopter.MIN_HEIGHT
    ∧ (Helicopter.update Vec3.l1 [] noControls 0 0 Vec3.zero Vec3.zero heliC5).velY = 0 :=
  have hcond : heliC5.posY + Helicopter.newVelY noControls 0 heliC5
      ≤ Helicopter.groundHeightBelow [] heliC5.posY + Helicopter.MIN_HEIGHT := by
    norm_num [heliC5, Helicopter.mkHelicopter, Helicopter.newVelY,
      Helicopter.newTargetHeight, Helicopter.groundHeightBelow, clampQ,
      Helicopter.MIN_HEIGHT, Helicopter.HEIGHT_CHANGE_SPEED,
      Helicopter.VERTICAL_DAMPING, Helicopter.MAX_VERTICAL_SPEED,
      Helicopter.INITIAL_HEIGHT, noControls, min_def, max_def]
  ⟨hcond,
    ((C5_carrier_floor_clamp Vec3.l1 [] noControls 0 0 Vec3.zero Vec3.zero heliC5).1 hcond).1,
    ((C5_carrier_floor_clamp Vec3.l1 [] noControls 0 0 Vec3.zero Vec3.zero heliC5).1 hcond).2.1⟩

/-- Helper: the ground fold starts at MIN_HEIGHT and max only raises it. -/
theorem groundHeightBelow_ge (planes : List ℚ) (y : ℚ) :
    Helicopter.MIN_HEIGHT ≤ Helicopter.groundHeightBelow planes y := by
  have key : ∀ (l : List ℚ) (acc : ℚ),
      acc ≤ l.foldl (fun acc h => if h ≤ y + 2 then max acc h else acc) acc := by
    intro l
    induction l with
    | nil => intro acc; simp
    | cons p rest ih =>
      intro acc
      simp only [List.foldl_cons]
      split_ifs with h1
      · exact le_trans (le_max_left acc p) (ih (max acc p))
      · exact ih acc
  exact key planes Helicopter.MIN_HEIGHT

/-- C6 is refuted: with a surface at height 2 sensed below the carrier
(the downward raycast returns 2), a down intent while airborne leaves
targetHeight at the absolute floor MIN_HEIGHT = 1/2, which is strictly
below sensed ground + MIN_HEIGHT = 5/2. -/
theorem C6_counterexample :
    Helicopter.groundHeightBelow [2] heliC6.posY = 2
    ∧ (Helicopter.update Vec3.l1 [2] cDown 0 0 Vec3.zero Vec3.zero heliC6).targetHeight
        = 1/2
    ∧ ((1:ℚ)/2) < 2 + Helicopter.MIN_HEIGHT := by
  refine ⟨?_, ?_, by norm_num [Helicopter.MIN_HEIGHT]⟩
  · norm_num [Helicopter.groundHeightBelow, heliC6, Helicopter.mkHelicopter,
      Helicopter.MIN_HEIGHT, max_def]
  · rw [heliUpdate_targetHeight]
    norm_num [Helicopter.newVelY, Helicopter.newTargetHeight,
      Helicopter.groundHeightBelow, clampQ, heliC6, Helicopter.mkHelicopter,
      cDown, noControls, Helicopter.MIN_HEIGHT, Helicopter.HEIGHT_CHANGE_SPEED,
      Helicopter.VERTICAL_DAMPING, Helicopter.MAX_VERTICAL_SPEED,
      Helicopter.INITIAL_HEIGHT, min_def, max_def]

/-- C6 amended: after every Helicopter.update call, targetHeight is at
least the absolute MIN_HEIGHT; it is snapped to sensed ground + MIN_HEIGHT
only when the vertical collision clamp triggers, and while airborne it is
not in general kept MIN_HEIGHT above the locally sensed ground. -/
theorem C6_targetHeight_amended (len : Vec3 → ℚ) (planes : List ℚ) (c : Controls)
    (dt hover : ℚ) (aL aR : Vec3) (s : Helicopter.State) :
    Helicopter.MIN_HEIGHT ≤ (Helicopter.update len planes c dt hover aL aR s).targetHeight := by
  rw [heliUpdate_targetHeight]
  split_ifs with h
  · have h1 := groundHeightBelow_ge planes s.posY
    have h2 : (0:ℚ) < Helicopter.MIN_HEIGHT := by norm_num [Helicopter.MIN_HEIGHT]
    linarith
  · unfold Helicopter.newTargetHeight
    exact le_max_left _ _

/-- Helper: Rope.update never changes the target length. -/
theorem rope_update_targetLength (len : Vec3 → ℚ) (planes : List ℚ)
    (s : Rope.State) (a pv : Vec3) :
    (Rope.update len planes s a pv).targetLength = s.targetLength := rfl

/-- C9: per tick and per rope at most one winch operation is applied, and
retract has priority: when the retract control is held the rope target
length is the retracted one regardless of the extend control, the extend
branch fires only when retract is not held, and with neither held the
target length is unchanged (the per-tick Rope.update itself never changes
the target length). -/
theorem C9_retract_priority (len : Vec3 → ℚ) (planes : List ℚ) (c : Controls)
    (dt hover : ℚ) (aL aR : Vec3) (s : Helicopter.State) :
    (c.q = true →
      (Helicopter.update len planes c dt hover aL aR s).leftRope.targetLength
        = (Rope.retract s.leftRope).targetLength)
    ∧ (c.q = false → c.a = true →
      (Helicopter.update len planes c dt hover aL aR s).leftRope.targetLength
        = (Rope.extend s.leftRope).targetLength)
    ∧ (c.q = false → c.a = false →
      (Helicopter.update len planes c dt hover aL aR s).leftRope.targetLength
        = s.leftRope.targetLength)
    ∧ (c.e = true →
      (Helicopter.update len planes c dt hover aL aR s).rightRope.targetLength
        = (Rope.retract s.rightRope).targetLength)
    ∧ (c.e = false → c.d = true →
      (Helicopter.update len planes c dt hover aL aR s).rightRope.targetLength
        = (Rope.extend s.rightRope).targetLength)
    ∧ (c.e = false → c.d = false →
      (Helicopter.update len planes c dt hover aL aR s).rightRope.targetLength
        = s.rightRope.targetLength) := by
  have hL : (Helicopter.update len planes c dt hover aL aR s).leftRope.targetLength
      = (if c.q then Rope.retract s.leftRope
         else if c.a then Rope.extend s.leftRope
         else s.leftRope).targetLength := rfl
  have hR : (Helicopter.update len planes c dt hover aL aR s).rightRope.targetLength
      = (if c.e then Rope.retract s.rightRope
         else if c.d then Rope.extend s.rightRope
         else s.rightRope).targetLength := rfl
  refine ⟨fun hq => ?_, fun hq ha => ?_, fun hq ha => ?_,
    fun he => ?_, fun he hd => ?_, fun he hd => ?_⟩
  · rw [hL, hq]; simp
  · rw [hL, hq, ha]; simp
  · rw [hL, hq, ha]; simp
  · rw [hR, he]; simp
  · rw [hR, he, hd]; simp
  · rw [hR, he, hd]; simp

/-- Witness for C9: with retract and extend held together on both sides,
both ropes end the tick with the retracted target length. -/
theorem C9_witness :
    cBoth.q = true ∧ cBoth.a = true ∧ cBoth.e = true ∧ cBoth.d = true
    ∧ (Helicopter.update Vec3.l1 [] cBoth 0 0 Vec3.zero Vec3.zero
        Helicopter.mkHelicopter).leftRope.targetLength
        = (Rope.retract Helicopter.mkHelicopter.leftRope).targetLength
    ∧ (Helicopter.update Vec3.l1 [] cBoth 0 0 Vec3.zero Vec3.zero
        Helicopter.mkHelicopter).rightRope.targetLength
        = (Rope.retract Helicopter.mkHelicopter.rightRope).targetLength :=
  ⟨rfl, rfl, rfl, rfl,
    (C9_retract_priority Vec3.l1 [] cBoth 0 0 Vec3.zero Vec3.zero
      Helicopter.mkHelicopter).1 rfl,
    (C9_retract_priority Vec3.l1 [] cBoth 0 0 Vec3.zero Vec3.zero
      Helicopter.mkHelicopter).2.2.2.1 rfl⟩

/-- Helper: the conditional ground fold equals the plain max fold over the
surfaces actually hit by the downward ray. -/
theorem groundHeightBelow_filter (planes : List ℚ) (y : ℚ) :
    Helicopter.groundHeightBelow planes y
      = (planes.filter (fun h => decide (h ≤ y + 2))).foldl max Helicopter.MIN_HEIGHT := by
  have key : ∀ (l : List ℚ) (acc : ℚ),
      l.foldl (fun acc h => if h ≤ y + 2 then max acc h else acc) acc
        = (l.filter (fun h => decide (h ≤ y + 2))).foldl max acc := by
    intro l
    induction l with
    | nil => intro acc; rfl
    | cons p rest ih =>
      intro acc
      simp only [List.foldl_cons, List.filter_cons, decide_eq_true_eq]
      split_ifs with h1
      · simp only [List.foldl_cons]
        exact ih (max acc p)
      · exact ih acc
  exact key planes Helicopter.MIN_HEIGHT

/-- C10: the ground height used by the carrier floor clamp starts at
MIN_HEIGHT and is only raised by raycast hits - it equals the max fold of
MIN_HEIGHT and the hit surfaces - so with an empty collision index (or no
surface below the carrier) the committed vertical position is never below
2 * MIN_HEIGHT. -/
theorem C10_ground_floor_default (len : Vec3 → ℚ) (c : Controls)
    (dt hover : ℚ) (aL aR : Vec3) (s : Helicopter.State)
    (planes : List ℚ) (y : ℚ) :
    2 * Helicopter.MIN_HEIGHT ≤ (Helicopter.update len [] c dt hover aL aR s).posY
    ∧ Helicopter.MIN_HEIGHT ≤ Helicopter.groundHeightBelow planes y
    ∧ Helicopter.groundHeightBelow planes y
        = (planes.filter (fun h => decide (h ≤ y + 2))).foldl max Helicopter.MIN_HEIGHT := by
  refine ⟨?_, groundHeightBelow_ge planes y, groundHeightBelow_filter planes y⟩
  rw [heliUpdate_posY]
  have hgb : Helicopter.groundHeightBelow [] s.posY = Helicopter.MIN_HEIGHT := rfl
  rw [hgb]
  split_ifs with h
  · linarith
  · push_neg at h
    linarith

end VG
